import Mathlib

/-!
Verification of the supercrawler crawl engine against its natural-language
specification.  The definitions below are a shallow embedding of the
JavaScript source files `lib/DbUrlList.js` and `lib/Crawler.js` (the latter
shipped in `examples/crawler.js` together with a demo script).  Machine
integers in the source are plain JS numbers used as counters and timestamps;
they are embedded as `Nat`/`Int`.  Promise rejection is embedded as
`Except`; a JS value that may be `null`/absent is embedded as `Option`.
-/

/-- Modelled from the spec: the `Url` value object (`lib/Url.js` is not part
of the provided sources; §3 "UrlRecord" describes it as an immutable value
holding the URL plus its last outcome).  The getters `getUrl`,
`getStatusCode`, `getErrorCode`, `getErrorMessage` used by `DbUrlList` and
`Crawler` read these fields; a field that is not supplied to the constructor
is `null` (here `none`). -/
structure Url where
  url : String
  statusCode : Option Nat := none
  errorCode : Option String := none
  errorMessage : Option String := none
deriving Repr, DecidableEq

/-- The schema in the `DbUrlList` constructor declares
`crawled: { type: Sequelize.BOOLEAN, allowNull: false }`. -/
def crawledAllowNull : Bool := false

/-- A plain JS values object handed to the store's `create` / `bulkCreate` /
`upsert` methods.  A field holding `none` models a property that is absent
from the object literal (for the nullable columns) — in particular
`crawled := none` means the literal does not mention the `crawled` column
at all. -/
structure UrlWriteRow where
  urlHash : String
  url : String
  statusCode : Option Nat
  errorCode : Option String
  errorMessage : Option String
  numErrors : Nat
  crawled : Option Bool
deriving Repr, DecidableEq

/-- Whether a values object supplies the non-nullable `crawled` column
(required because the schema declares it `allowNull: false`). -/
def writeRowHasCrawled (w : UrlWriteRow) : Bool := w.crawled.isSome

/-- Embedding of `DbUrlList.prototype._makeUrlRow`.  The SHA-1 digest of
`crypto` is abstracted as the function `hash`.  Note the returned object
literal in the source has exactly the six fields `urlHash`, `url`,
`statusCode`, `errorCode`, `errorMessage`, `numErrors`; it does not set the
`crawled` column, so `crawled := none` here. -/
def makeUrlRow (hash : String → String) (u : Url) : UrlWriteRow :=
  { urlHash := hash u.url
    url := u.url
    statusCode := u.statusCode
    errorCode := u.errorCode
    errorMessage := u.errorMessage
    numErrors := if u.errorCode == none then 0 else 1
    crawled := none }

/-- A content-type matcher as registered with `Crawler.prototype.addHandler`:
in the source it is either a plain string (the wildcard `"*"` or a
content-type/prefix) or a JS array of content-type strings. -/
inductive Matcher where
  | str (s : String)
  | arr (l : List String)
deriving Repr, DecidableEq

/-- Embedding of the JS test `s.indexOf(pre) === 0` (`s` starts with
`pre`), as the string-prefix test on the character sequences. -/
def jsStartsWith (s pre : String) : Bool :=
  pre.data.isPrefixOf s.data

/-- Embedding of the matching chain in `Crawler.prototype._fireHandlers`:
`handlerContentType === "*"`, then
`Array.isArray(handlerContentType) && handlerContentType.indexOf(contentType) > -1`,
then `(contentType + "/").indexOf(handlerContentType + "/") === 0`.
When the matcher is an array that does not contain `contentType`, the third
test still runs: JS coerces the array to its comma-joined string
(`String.intercalate ","` here). -/
def matcherMatches (m : Matcher) (contentType : String) : Bool :=
  match m with
  | .str s =>
    if s == "*" then true
    else jsStartsWith (contentType ++ "/") (s ++ "/")
  | .arr l =>
    if l.contains contentType then true
    else jsStartsWith (contentType ++ "/") (String.intercalate "," l ++ "/")

/-- The JS value a handler hands back: an array of link strings, or any
non-array value (`undefined`, a string, an object, …). -/
inductive JsVal where
  | arr (links : List String)
  | nonArray
deriving Repr

/-- The `ctx` object `_fireHandlers` passes to every handler. -/
structure CrawlContext where
  body : String
  url : String
  contentType : String

/-- A registered handler: it may return a value or throw (reject). -/
def Handler : Type := CrawlContext → Except String JsVal

/-- The `if (!(subArr instanceof Array)) subArr = []` coercion in
`_fireHandlers`: a non-array return contributes the empty list. -/
def coerceLinks : JsVal → List String
  | .arr links => links
  | .nonArray => []

/-- Embedding of the `Promise.reduce` loop of `_fireHandlers`: walk the
registered `(matcher, handler)` pairs in registration order; skip pairs
whose matcher does not match; run a matching handler, propagating its
failure, and append its (coerced) links onto the accumulator. -/
def runHandlers (ctx : CrawlContext) :
    List (Matcher × Handler) → List String → Except String (List String)
  | [], acc => .ok acc
  | (m, h) :: rest, acc =>
    if matcherMatches m ctx.contentType then
      match h ctx with
      | .error e => .error e
      | .ok v => runHandlers ctx rest (acc ++ coerceLinks v)
    else
      runHandlers ctx rest acc

/-- Embedding of `contentType.replace(/;.*$/g, "")` for a single-line
header value: drop everything from the first `;` onward. -/
def stripContentTypeParams (ct : String) : String :=
  ⟨ct.data.takeWhile (fun c => c ≠ ';')⟩

/-- Embedding of `Crawler.prototype._fireHandlers`: strip the content-type
parameters, build the context and run the registered handlers. -/
def fireHandlers (handlers : List (Matcher × Handler))
    (contentType body url : String) : Except String (List String) :=
  runHandlers
    { body := body, url := url, contentType := stripContentTypeParams contentType }
    handlers []

/-- Embedding of the two-argument form of `Crawler.prototype.addHandler`:
append the `(matcher, handler)` pair to the registration list. -/
def addHandler (hs : List (Matcher × Handler)) (m : Matcher) (h : Handler) :
    List (Matcher × Handler) :=
  hs ++ [(m, h)]

/-- Embedding of the one-argument form of `addHandler`: the source
re-invokes itself as `this.addHandler("*", arguments[0])`. -/
def addHandlerSingle (hs : List (Matcher × Handler)) (h : Handler) :
    List (Matcher × Handler) :=
  addHandler hs (.str "*") h

/-- The mathematical reading of the dispatch result stated by the spec: the
concatenation, in registration order, of each matching handler's
contribution (a non-array contributing nothing). -/
def handlerContributions (ctx : CrawlContext)
    (hs : List (Matcher × Handler)) : List String :=
  (hs.map (fun p =>
    if matcherMatches p.1 ctx.contentType then
      match p.2 ctx with
      | .ok v => coerceLinks v
      | .error _ => []
    else [])).flatten

/-- Embedding of the synchronous prefix of `Crawler.prototype._crawlTick`
(from `_getNextRequestDate` up to and including the write of
`this._lastRequestDate`).  In the source this whole segment runs between
two I/O yields of a single-threaded event loop, so across all tick chains
it executes atomically; it is therefore one step here.  The state is the
shared `_lastRequestDate` (absent before the first request).  When the
next allowed date `last + interval` lies in the future the chain
reschedules itself without writing (`false`); otherwise it writes `now`
synchronously and proceeds to dequeue (`true`).  Before any request,
`_getNextRequestDate` returns a `Date` created just before `nowDate`, so
the chain always proceeds. -/
def crawlTickGate (interval : Nat) (now : Nat) :
    Option Nat → Option Nat × Bool
  | none => (some now, true)
  | some last =>
    if last + interval ≤ now then (some now, true) else (some last, false)

/-- The timestamps at which `_lastRequestDate` is written when tick-chain
steps run at the given moments (each element of `times` is the `nowDate` of
one execution of the synchronous prefix, across all chains, in event-loop
order). -/
def tickWrites (interval : Nat) : List Nat → Option Nat → List Nat
  | [], _ => []
  | t :: ts, st =>
    match crawlTickGate interval t st with
    | (st', true) => t :: tickWrites interval ts st'
    | (st', false) => tickWrites interval ts st'

/-- A JS number-or-function option value, as accepted for `opts.interval`
(`interval` may be "number or zero-arg producer"). -/
inductive JsNumOrFn where
  | num (n : Int)
  | fn (f : Unit → Int)

/-- JS truthiness for such a value: the number 0 is falsy, every other
number is truthy, and a function is always truthy. -/
def jsTruthy : JsNumOrFn → Bool
  | .num n => n != 0
  | .fn _ => true

/-- Embedding of `this._interval = opts.interval || DEFAULT_INTERVAL` in
the `Crawler` constructor (`DEFAULT_INTERVAL = 1000`): an absent or falsy
option is replaced by the default. -/
def crawlerIntervalOpt (opt : Option JsNumOrFn) : JsNumOrFn :=
  match opt with
  | none => .num 1000
  | some v => if jsTruthy v then v else .num 1000

/-- Embedding of `Crawler.prototype.getInterval`: call the stored value if
it is a function, otherwise return it. -/
def getInterval : JsNumOrFn → Int
  | .num n => n
  | .fn f => f ()

/-- Embedding of
`this._concurrentRequestsLimit = opts.concurrentRequestsLimit || DEFAULT_CONCURRENT_REQUESTS_LIMIT`
(`DEFAULT_CONCURRENT_REQUESTS_LIMIT = 5`), which
`getConcurrentRequestsLimit` returns unchanged. -/
def crawlerConcurrentLimitOpt (opt : Option Int) : Int :=
  match opt with
  | none => 5
  | some n => if n != 0 then n else 5

/-- A handler returning one link, used to evaluate dispatch. -/
def handlerW1 : Handler := fun _ => Except.ok (.arr ["http://a/1"])

/-- A handler returning two links, used to evaluate dispatch. -/
def handlerW2 : Handler := fun _ => Except.ok (.arr ["http://a/2", "http://a/3"])

/-- A registry with a wildcard handler and a "text" prefix handler. -/
def registryW : List (Matcher × Handler) :=
  [(.str "*", handlerW1), (.str "text", handlerW2)]

/-- Helper: appending "/" on both sides of the prefix test is the same as
equality or a strict "T/" prefix — the string fact behind the single-string
matcher branch. -/
theorem jsStartsWith_append_slash (ct s : String) :
    jsStartsWith (ct ++ "/") (s ++ "/") = (ct == s || jsStartsWith ct (s ++ "/")) := by
  rw [Bool.eq_iff_iff]
  simp only [jsStartsWith, Bool.or_eq_true, beq_iff_eq, List.isPrefixOf_iff_prefix]
  have h1 : (ct ++ "/").data = ct.data ++ ['/'] := rfl
  have h2 : (s ++ "/").data = s.data ++ ['/'] := rfl
  rw [h1, h2, List.prefix_concat_iff, List.append_left_inj]
  constructor
  · rintro (h | h)
    · exact Or.inl (String.ext h).symm
    · exact Or.inr (h2 ▸ h)
  · rintro (h | h)
    · exact Or.inl (by rw [h])
    · exact Or.inr h

/-- Helper: the handler reduce loop, when no matching handler throws,
returns the accumulator followed by the matching handlers' contributions in
registration order. -/
theorem runHandlers_append_contrib (ctx : CrawlContext)
    (hs : List (Matcher × Handler)) (acc : List String)
    (hok : ∀ p ∈ hs, matcherMatches p.1 ctx.contentType = true →
      ∃ v, p.2 ctx = Except.ok v) :
    runHandlers ctx hs acc = .ok (acc ++ handlerContributions ctx hs) := by
  induction hs generalizing acc with
  | nil => simp [runHandlers, handlerContributions]
  | cons p rest ih =>
    obtain ⟨m, h⟩ := p
    have hok' : ∀ q ∈ rest, matcherMatches q.1 ctx.contentType = true →
        ∃ v, q.2 ctx = Except.ok v :=
      fun q hq => hok q (List.mem_cons_of_mem _ hq)
    by_cases hm : matcherMatches m ctx.contentType = true
    · obtain ⟨v, hv0⟩ := hok (m, h) (List.mem_cons_self _ _) hm
      have hv : h ctx = Except.ok v := hv0
      show (if matcherMatches m ctx.contentType = true then
              match h ctx with
              | Except.error e => Except.error e
              | Except.ok v => runHandlers ctx rest (acc ++ coerceLinks v)
            else runHandlers ctx rest acc)
          = Except.ok (acc ++ handlerContributions ctx ((m, h) :: rest))
      rw [if_pos hm, hv]
      show runHandlers ctx rest (acc ++ coerceLinks v)
          = Except.ok (acc ++ handlerContributions ctx ((m, h) :: rest))
      rw [ih _ hok']
      simp [handlerContributions, hv, hm, List.append_assoc]
    · show (if matcherMatches m ctx.contentType = true then
              match h ctx with
              | Except.error e => Except.error e
              | Except.ok v => runHandlers ctx rest (acc ++ coerceLinks v)
            else runHandlers ctx rest acc)
          = Except.ok (acc ++ handlerContributions ctx ((m, h) :: rest))
      rw [if_neg hm, ih _ hok']
      have hb : matcherMatches m ctx.contentType = false := by simpa using hm
      simp [handlerContributions, hb]

/-- Helper: starting from a written timestamp `last`, every later write is
at least `interval` after its predecessor (and the first is at least
`interval` after `last`). -/
theorem tickWrites_chain (interval : Nat) (ts : List Nat) (last : Nat) :
    List.Chain (fun a b => a + interval ≤ b) last (tickWrites interval ts (some last)) := by
  induction ts generalizing last with
  | nil => exact List.Chain.nil
  | cons t ts ih =>
    by_cases h : last + interval ≤ t
    · have heq : tickWrites interval (t :: ts) (some last)
          = t :: tickWrites interval ts (some t) := by
        simp [tickWrites, crawlTickGate, h]
      rw [heq]
      exact List.Chain.cons h (ih t)
    · have heq : tickWrites interval (t :: ts) (some last)
          = tickWrites interval ts (some last) := by
        simp [tickWrites, crawlTickGate, h]
      rw [heq]
      exact ih last

/-- Claim C3, evaluated at its failing input.  The claim states that
`insertIfNotExists` creates rows with `crawled = false`, `errorCode = null`,
`statusCode = null`, `numErrors = 0`.  The row built by `_makeUrlRow` for a
fresh URL does carry null `errorCode`/`statusCode` and `numErrors = 0`, but
it omits the `crawled` column entirely even though the table schema
declares that column non-nullable — the created row never carries
`crawled = false`. -/
theorem makeUrlRow_omits_crawled :
    (makeUrlRow id { url := "https://example.com/" }).errorCode = none
    ∧ (makeUrlRow id { url := "https://example.com/" }).statusCode = none
    ∧ (makeUrlRow id { url := "https://example.com/" }).numErrors = 0
    ∧ (makeUrlRow id { url := "https://example.com/" }).crawled = none
    ∧ writeRowHasCrawled (makeUrlRow id { url := "https://example.com/" }) = false
    ∧ crawledAllowNull = false :=
  ⟨rfl, rfl, rfl, rfl, rfl, rfl⟩

/-- Claim C6, counterexample.  The claim states a list matcher matches iff
the list contains `contentType` exactly.  When the containment test fails,
the source falls through to the prefix branch, which coerces the array to
its comma-joined string: the matcher `["text"]` therefore matches
`"text/html"` although the list does not contain it. -/
theorem matcherMatches_list_coercion_counterexample :
    matcherMatches (.arr ["text"]) "text/html" = true
    ∧ (["text"] : List String).contains "text/html" = false :=
  ⟨rfl, rfl⟩

/-- Claim C6 as amended: the wildcard matches every content type; a
single-string matcher `T` matches exactly when `contentType` equals `T` or
begins with `T` followed by "/" (the first equation specialises to
`matcherMatches (Matcher.str s) ct = true` iff `ct = s` or the prefix test
holds, once `s` is not the wildcard); a list matcher matches when it
contains `contentType` exactly, or — by the fall-through string coercion —
when `contentType + "/"` begins with the comma-joined list followed
by "/". -/
theorem matcherMatches_characterization (ct s : String) (l : List String) :
    matcherMatches (.str "*") ct = true
    ∧ matcherMatches (.str s) ct
        = (s == "*" || ct == s || jsStartsWith ct (s ++ "/"))
    ∧ matcherMatches (.arr l) ct
        = (l.contains ct
           || jsStartsWith (ct ++ "/") (String.intercalate "," l ++ "/")) := by
  refine ⟨rfl, ?_, ?_⟩
  · by_cases h : (s == "*") = true
    · simp [matcherMatches, h]
    · have hb : (s == "*") = false := by simpa using h
      simp [matcherMatches, hb, jsStartsWith_append_slash]
  · by_cases h : l.contains ct = true
    · simp [matcherMatches, h]
    · have hb : l.contains ct = false := by simpa using h
      simp [matcherMatches, hb]

/-- Claim C7: when every matching handler returns without throwing, the
dispatch of a response through `_fireHandlers` yields the concatenation, in
registration order, of each matching handler's returned link list, a
non-list return contributing the empty list. -/
theorem fireHandlers_concatenation (handlers : List (Matcher × Handler))
    (contentType body url : String)
    (hok : ∀ p ∈ handlers,
      matcherMatches p.1 (stripContentTypeParams contentType) = true →
      ∃ v, p.2 { body := body, url := url,
                 contentType := stripContentTypeParams contentType } = Except.ok v) :
    fireHandlers handlers contentType body url
      = .ok (handlerContributions
          { body := body, url := url,
            contentType := stripContentTypeParams contentType } handlers) := by
  simpa [fireHandlers] using
    runHandlers_append_contrib
      { body := body, url := url, contentType := stripContentTypeParams contentType }
      handlers [] hok

/-- Claim C7, witness: dispatching a "text/html; charset=utf8" response to
the registry [wildcard ↦ one link, "text" ↦ two links] yields the three
links in registration order. -/
theorem fireHandlers_concatenation_witness :
    fireHandlers registryW "text/html; charset=utf8" "<html></html>" "http://a/"
      = Except.ok ["http://a/1", "http://a/2", "http://a/3"] := by
  have h := fireHandlers_concatenation registryW "text/html; charset=utf8"
    "<html></html>" "http://a/"
    (by
      intro p hp hm
      simp only [registryW, List.mem_cons, List.not_mem_nil, or_false] at hp
      rcases hp with rfl | rfl
      · exact ⟨_, rfl⟩
      · exact ⟨_, rfl⟩)
  rw [h]
  rfl

/-- Claim C8: in the event-loop trace model of the tick chains (each
element of `times` is one atomic run of the synchronous prefix of
`_crawlTick`, which writes `lastRequestDate` before any I/O yield), any two
successive writes of the shared timestamp are separated by at least
`interval` milliseconds, and a chain that observes a next-allowed time in
the future does not write (it reschedules, leaving the state unchanged). -/
theorem crawlTick_pacing (interval : Nat) (times : List Nat) (last now : Nat) :
    List.Chain' (fun a b => a + interval ≤ b) (tickWrites interval times none)
    ∧ ((crawlTickGate interval now (some last)).2 = false ↔ now < last + interval)
    ∧ ((crawlTickGate interval now (some last)).2 = false →
        (crawlTickGate interval now (some last)).1 = some last) := by
  refine ⟨?_, ?_, ?_⟩
  · cases times with
    | nil => exact List.chain'_nil
    | cons t ts =>
      have heq : tickWrites interval (t :: ts) none
          = t :: tickWrites interval ts (some t) := by
        simp [tickWrites, crawlTickGate]
      rw [heq]
      exact tickWrites_chain interval ts t
  · by_cases h : last + interval ≤ now
    · simp [crawlTickGate, h, Nat.not_lt.mpr h]
    · simp [crawlTickGate, h, Nat.lt_of_not_le h]
  · intro hfalse
    by_cases h : last + interval ≤ now
    · simp [crawlTickGate, h] at hfalse
    · simp [crawlTickGate, h]

/-- Claim C8, witness: with interval 1000, a chain running at time 500
after a write at time 0 observes a future next-allowed time and leaves the
timestamp unchanged. -/
theorem crawlTick_pacing_witness :
    (crawlTickGate 1000 500 (some 0)).1 = some 0 :=
  (crawlTick_pacing 1000 [] 0 500).2.2 (by decide)

/-- Claim C9: the one-argument form of `addHandler` registers the handler
under the wildcard matcher — it equals the two-argument call with "*", the
registered pair is (wildcard, handler), and the wildcard matches every
content type, so the handler is invoked on every dispatched response. -/
theorem addHandlerSingle_wildcard (hs : List (Matcher × Handler)) (h : Handler)
    (ct : String) :
    addHandlerSingle hs h = addHandler hs (.str "*") h
    ∧ addHandlerSingle hs h = hs ++ [(.str "*", h)]
    ∧ matcherMatches (.str "*") ct = true :=
  ⟨rfl, rfl, rfl⟩

/-- Claim C10, counterexample.  The claim states a zero inter-request
interval cannot be configured through the constructor; a function-valued
`opts.interval` is truthy, is stored unchanged, and may return 0, so
`getInterval()` returns 0. -/
theorem getInterval_fn_zero :
    getInterval (crawlerIntervalOpt (some (.fn (fun _ => 0)))) = 0 := rfl

/-- Claim C10 as amended: a falsy `interval` or `concurrentRequestsLimit`
(absent or the number 0) is silently replaced by the defaults 1000 ms and
5; a numeric option is kept exactly when non-zero, so a zero numeric
interval cannot be configured through the constructor — though a
function-valued interval is stored unchanged and may produce 0. -/
theorem crawler_option_defaults (n : Int) (f : Unit → Int) :
    getInterval (crawlerIntervalOpt none) = 1000
    ∧ getInterval (crawlerIntervalOpt (some (.num 0))) = 1000
    ∧ crawlerConcurrentLimitOpt none = 5
    ∧ crawlerConcurrentLimitOpt (some 0) = 5
    ∧ getInterval (crawlerIntervalOpt (some (.num n))) = (if n = 0 then 1000 else n)
    ∧ crawlerConcurrentLimitOpt (some n) = (if n = 0 then 5 else n)
    ∧ crawlerIntervalOpt (some (.fn f)) = .fn f := by
  refine ⟨rfl, rfl, rfl, rfl, ?_, ?_, rfl⟩
  · by_cases h : n = 0 <;> simp [crawlerIntervalOpt, jsTruthy, getInterval, h]
  · by_cases h : n = 0 <;> simp [crawlerConcurrentLimitOpt, h]
